import Mathlib

/-!
Verification of the facility-monitoring telemetry service (test-server).

Shallow embedding of `src/app/scheduler.py` (snapshot generation, retention,
job controller), `src/auth.py` (multi-scheme authentication) and the
`/api/v2/facilities/{id}/metrics` endpoint of `src/app/main.py`.

Conventions of the embedding:
* SQLAlchemy rows become Lean structures; the database session becomes an
  explicit `DBState` value threaded through the functions.
* Timestamps (`datetime`) become `Nat` values: only their total order is used.
* Python floats (`energy_kwh`, `water_liters`) become `Rat`.
* Python's `random` calls are modelled by a per-run oracle (`RunRandom`):
  `randint(a, b)` becomes `a + seed % (b - a + 1)`, which has exactly the
  support `[a, b]`; `random.choice` on a list becomes indexing by
  `seed % length`, which fails (raises `IndexError`) on an empty list.
* `int(0.4 * capacity)` / `int(0.9 * capacity)` truncate a non-negative
  product, i.e. floor; over `Nat` they are the divisions `2 * c / 5` and
  `9 * c / 10`.
* Fallible steps return `Option`/`Except`; exceptions caught by
  `except Exception` are modelled by explicit error propagation into the
  handler's code.
-/

/-! ## Data model (src/app/models.py) -/

/-- Row of `facilities` (class `Facility`). Only the columns the scheduler
reads are modelled. -/
structure Facility where
  id : String
  name : String
  city : String
  capacity : Nat
  is_active : Bool
deriving DecidableEq

/-- Row of `snapshot_executions` (class `SnapshotExecution`). -/
structure Execution where
  id : Nat
  execution_time : Nat
  status : String
  execution_duration_ms : Option Nat
deriving DecidableEq

/-- Row of `hvac_statuses` (class `HVACStatus`). -/
structure HVACStatusRow where
  id : Nat
  code : String
  description : String
deriving DecidableEq

/-- Row of `facility_metrics` (class `FacilityMetric`). -/
structure Metric where
  snapshot_id : Nat
  facility_id : String
  hvac_status_id : Nat
  occupancy : Nat
  energy_kwh : Rat
  water_liters : Rat
  open_tickets : Nat
  recorded_at : Nat
deriving DecidableEq

/-- The database: the four tables, as committed row lists. -/
structure DBState where
  facilities : List Facility
  hvac_statuses : List HVACStatusRow
  executions : List Execution
  metrics : List Metric
deriving DecidableEq

/-! ## Retention (src/app/scheduler.py, retain_last_n) -/

/-- `ORDER BY execution_time DESC`: the comparison relation. -/
def execGe (a b : Execution) : Prop := b.execution_time ≤ a.execution_time

instance : DecidableRel execGe := fun a b => Nat.decLe _ _

instance : IsTotal Execution execGe :=
  ⟨fun a b => (Nat.le_total b.execution_time a.execution_time).imp id id⟩

instance : IsTrans Execution execGe :=
  ⟨fun _ _ _ h1 h2 => Nat.le_trans h2 h1⟩

/-- The executions ordered by `execution_time` descending (line 72-74). -/
def orderedExecs (db : DBState) : List Execution :=
  List.insertionSort execGe db.executions

/-- The executions beyond position `limit` in descending order: the rows the
retention pass deletes (`executions[limit:]`, line 77). Empty when the table
holds at most `limit` rows. -/
def retainPurged (db : DBState) (limit : Nat) : List Execution :=
  (orderedExecs db).drop limit

/-- `retain_last_n(db, limit)` (lines 71-82): reload all executions ordered by
`execution_time` descending; if there are more than `limit`, delete each
execution beyond position `limit` together with its metric rows, then commit.
The Python function has no `return` statement, so its value is `None`,
modelled as the second component `(none : Option Nat)`. -/
def retain_last_n (db : DBState) (limit : Nat) : DBState × Option Nat :=
  let executions := orderedExecs db
  if limit < executions.length then
    let old := executions.drop limit
    let oldIds := old.map (·.id)
    ({ db with
        executions := executions.take limit
        metrics := db.metrics.filter (fun m => !(oldIds.contains m.snapshot_id)) },
      none)
  else (db, none)

/-! ## Snapshot generation (src/app/scheduler.py, generate_snapshot) -/

/-- `random.randint(lo, hi)`: any value of `[lo, hi]`, selected by the oracle
seed `s`. For `lo ≤ hi` the result is in `[lo, hi]`, matching
`lo + randbelow(hi - lo + 1)`. -/
def randint (lo hi s : Nat) : Nat := lo + s % (hi + 1 - lo)

/-- `random.choice(xs)`: indexing by the oracle seed; `none` models the
`IndexError` raised on an empty sequence. -/
def choice {α : Type} (xs : List α) (s : Nat) : Option α :=
  xs.get? (s % xs.length)

/-- `random.uniform(a, b)`: `a + fract u * (b - a)` for the oracle draw `u`,
with support `[a, b)` for `a < b`. -/
def uniform (a b u : Rat) : Rat := a + (u - ⌊u⌋) * (b - a)

/-- Per-run randomness oracle: the values the five `random` calls of the
facility loop draw, per facility index. -/
structure RunRandom where
  occSeed : Nat → Nat
  choiceSeed : Nat → Nat
  energyDraw : Nat → Rat
  waterDraw : Nat → Rat
  ticketsSeed : Nat → Nat

/-- Fault oracle: which fallible database steps of `generate_snapshot` raise.
`metricFails i` is a failure of the `db.add(metric)` insert for the `i`-th
active facility. -/
structure FaultSpec where
  createFails : Bool
  loadFails : Bool
  metricFails : Nat → Bool
  commitFails : Bool

/-- A fault oracle under which every database step succeeds. -/
def noFault : FaultSpec :=
  { createFails := false, loadFails := false,
    metricFails := fun _ => false, commitFails := false }

/-- `int(0.4 * f.capacity)`: floor of `0.4 · capacity` (line 37). -/
def occLo (capacity : Nat) : Nat := 2 * capacity / 5

/-- `int(0.9 * f.capacity)`: floor of `0.9 · capacity` (line 38). -/
def occHi (capacity : Nat) : Nat := 9 * capacity / 10

/-- The metric row built for facility `f` at loop index `i` (lines 36-50).
`none` models the `IndexError` of `random.choice` on an empty status set. -/
def buildMetric (snapId : Nat) (f : Facility) (statuses : List HVACStatusRow)
    (rng : RunRandom) (i tNow : Nat) : Option Metric :=
  match choice statuses (rng.choiceSeed i) with
  | none => none
  | some st =>
    some { snapshot_id := snapId
           facility_id := f.id
           hvac_status_id := st.id
           occupancy := randint (occLo f.capacity) (occHi f.capacity) (rng.occSeed i)
           energy_kwh := uniform 10000 30000 (rng.energyDraw i)
           water_liters := uniform 20000 60000 (rng.waterDraw i)
           open_tickets := randint 0 20 (rng.ticketsSeed i)
           recorded_at := tNow }

/-- The facility loop (lines 35-51): builds one metric per active facility,
accumulating the rows `db.add` has made pending. On a failure (status set
empty, or a faulted insert) it aborts with the rows already pending, which the
exception handler's `db.commit()` will flush. -/
def insertLoop (snapId : Nat) (facilities : List Facility)
    (statuses : List HVACStatusRow) (rng : RunRandom) (fault : FaultSpec)
    (tNow i : Nat) (acc : List Metric) : Except (List Metric) (List Metric) :=
  match facilities with
  | [] => .ok acc
  | f :: rest =>
    match buildMetric snapId f statuses rng i tNow with
    | none => .error acc
    | some m =>
      if fault.metricFails i then .error acc
      else insertLoop snapId rest statuses rng fault tNow (i + 1) (acc ++ [m])

/-- Fresh autoincrement id for a new `SnapshotExecution` row. -/
def nextExecId (db : DBState) : Nat :=
  (db.executions.map (·.id)).foldr max 0 + 1

/-- Set the status of the execution row with the given id (the handler's
`snapshot.status = "failed"` (or `"success"`) followed by `db.commit()`). -/
def setExecStatus (db : DBState) (eid : Nat) (status : String)
    (dur : Option Nat) : DBState :=
  { db with
      executions := db.executions.map (fun e =>
        if e.id = eid then { e with status := status, execution_duration_ms := dur }
        else e) }

/-- Outcome of one `generate_snapshot` call: the committed database, whether
the retention pass ran, and whether an exception escaped the function. -/
structure GenResult where
  db : DBState
  retentionRan : Bool
  raised : Bool
deriving DecidableEq

/-- `generate_snapshot()` (lines 19-64), for one session over `db0`, with the
randomness oracle `rng`, fault oracle `fault`, wall-clock `tNow`
(`datetime.utcnow()`) and measured duration `tDur`.

The `try` block inserts a `running` execution, loads the active facilities and
the statuses, runs the facility loop, marks success with the duration, commits
and runs `retain_last_n(db, 50)`. `except Exception` catches any failure, sets
the execution's status to `"failed"` and commits — flushing, with it, whatever
rows were still pending in the session (a failed create commits the pending
execution row itself; a mid-loop failure commits the metrics added so far).
No path re-raises, so `raised` is `false` on every branch. -/
def generate_snapshot (db0 : DBState) (rng : RunRandom) (fault : FaultSpec)
    (tNow tDur : Nat) : GenResult :=
  let newId := nextExecId db0
  let snapshot : Execution :=
    { id := newId, execution_time := tNow, status := "running",
      execution_duration_ms := none }
  if fault.createFails then
    -- the first db.commit() raised: the insert was not committed; the handler
    -- sets status "failed" and its commit flushes the pending row
    { db := { db0 with
                executions := db0.executions ++ [{ snapshot with status := "failed" }] },
      retentionRan := false, raised := false }
  else
    let db1 := { db0 with executions := db0.executions ++ [snapshot] }
    if fault.loadFails then
      { db := setExecStatus db1 newId "failed" none,
        retentionRan := false, raised := false }
    else
      let facilities := db1.facilities.filter (·.is_active)
      let statuses := db1.hvac_statuses
      match insertLoop newId facilities statuses rng fault tNow 0 [] with
      | .error pending =>
        { db := setExecStatus { db1 with metrics := db1.metrics ++ pending }
                  newId "failed" none,
          retentionRan := false, raised := false }
      | .ok produced =>
        let db2 := setExecStatus { db1 with metrics := db1.metrics ++ produced }
                     newId "success" (some tDur)
        if fault.commitFails then
          { db := setExecStatus { db1 with metrics := db1.metrics ++ produced }
                    newId "failed" none,
            retentionRan := false, raised := false }
        else
          { db := (retain_last_n db2 50).1, retentionRan := true, raised := false }

/-! ## Job controller (src/app/scheduler.py, control functions) -/

/-- Controller state: `running` is `scheduler.running` (the underlying timer);
`job` is `scheduler.get_job(JOB_ID)`, `none` when the job is absent and
`some paused` when it is registered, with `paused = true` exactly when the job
has no next fire time (`pause_job` was applied last). -/
structure SchedState where
  running : Bool
  job : Option Bool
deriving DecidableEq

/-- The structure returned by `scheduler_status` (lines 137-141). -/
structure StatusReport where
  scheduler_running : Bool
  job_exists : Bool
  job_paused : Option Bool
deriving DecidableEq

/-- `start_scheduler()` (lines 89-104): `already_running` when the job is
registered; otherwise register the job (unpaused) and start the timer if it
is not running. -/
def start_scheduler (s : SchedState) : SchedState × String :=
  if s.job.isSome then (s, "already_running")
  else ({ running := true, job := some false }, "started")

/-- `pause_scheduler()` (lines 107-113). -/
def pause_scheduler (s : SchedState) : SchedState × String :=
  match s.job with
  | none => (s, "not_running")
  | some _ => ({ s with job := some true }, "paused")

/-- `resume_scheduler()` (lines 116-122). -/
def resume_scheduler (s : SchedState) : SchedState × String :=
  match s.job with
  | none => (s, "not_running")
  | some _ => ({ s with job := some false }, "resumed")

/-- `stop_scheduler()` (lines 125-131). -/
def stop_scheduler (s : SchedState) : SchedState × String :=
  match s.job with
  | none => (s, "not_running")
  | some _ => ({ s with job := none }, "stopped")

/-- `scheduler_status()` (lines 134-141): a read of the controller state. The
pair returns the (unchanged) state alongside the report, mirroring that the
Python function only reads `scheduler`. -/
def scheduler_status (s : SchedState) : SchedState × StatusReport :=
  (s, { scheduler_running := s.running, job_exists := s.job.isSome,
        job_paused := s.job })

/-! ## Authentication (src/auth.py)

The configured secrets come from `app/config.py`, which only defines constant
values; they are passed as an `AuthConfig` parameter and all theorems hold for
every configuration. -/

/-- The four configured secrets imported from `.config`. -/
structure AuthConfig where
  BASIC_USER : String
  BASIC_PASS : String
  API_KEY : String
  BEARER_TOKEN : String
deriving DecidableEq

/-- The credential material of a request: `request.headers.get(...)` yields
`none` for an absent header. -/
structure AuthRequest where
  authorization : Option String
  x_api_key : Option String
deriving DecidableEq

/-- Python truthiness of an optional header string: `None` and `""` are falsy. -/
def truthy : Option String → Bool
  | none => false
  | some s => !(s == "")

/-- Index of a character in the standard base64 alphabet. -/
def b64Value (c : Char) : Option Nat :=
  if 'A' ≤ c ∧ c ≤ 'Z' then some (c.toNat - 65)
  else if 'a' ≤ c ∧ c ≤ 'z' then some (c.toNat - 97 + 26)
  else if '0' ≤ c ∧ c ≤ '9' then some (c.toNat - 48 + 52)
  else if c = '+' then some 62
  else if c = '/' then some 63
  else none

/-- Decode base64 quadruples into bytes; `=` padding is accepted only at the
end of the final quadruple. `none` models `binascii.Error`. -/
def b64DecodeGroups : List Char → Option (List Nat)
  | [] => some []
  | a :: b :: c :: d :: rest =>
    match b64Value a, b64Value b with
    | some va, some vb =>
      if c = '=' ∧ d = '=' ∧ rest = [] then some [va * 4 + vb / 16]
      else
        match b64Value c with
        | some vc =>
          if d = '=' ∧ rest = [] then
            some [va * 4 + vb / 16, vb % 16 * 16 + vc / 4]
          else
            match b64Value d with
            | some vd =>
              (b64DecodeGroups rest).map fun tail =>
                (va * 4 + vb / 16) :: (vb % 16 * 16 + vc / 4) :: (vc % 4 * 64 + vd) :: tail
            | none => none
        | none => none
    | _, _ => none
  | _ => none

/-- `base64.b64decode` with the default `validate=False`: characters outside
the alphabet and the padding are discarded, then the length must be a multiple
of four (`b64DecodeGroups` rejects a short final group). -/
def b64decode (s : String) : Option (List Nat) :=
  b64DecodeGroups (s.data.filter fun c => (b64Value c).isSome || c == '=')

/-- A UTF-8 continuation byte. -/
def utf8Cont (b : Nat) : Prop := 128 ≤ b ∧ b ≤ 191

instance (b : Nat) : Decidable (utf8Cont b) := instDecidableAnd

/-- Strict UTF-8 decoding of a byte list (`bytes.decode()`): rejects overlong
forms, surrogates and code points beyond `0x10FFFF`; `none` models
`UnicodeDecodeError`. -/
def utf8Decode : List Nat → Option (List Char)
  | [] => some []
  | b1 :: rest =>
    if b1 ≤ 127 then (utf8Decode rest).map (Char.ofNat b1 :: ·)
    else if 194 ≤ b1 ∧ b1 ≤ 223 then
      match rest with
      | b2 :: rest2 =>
        if utf8Cont b2 then
          (utf8Decode rest2).map (Char.ofNat ((b1 - 192) * 64 + (b2 - 128)) :: ·)
        else none
      | [] => none
    else if 224 ≤ b1 ∧ b1 ≤ 239 then
      match rest with
      | b2 :: b3 :: rest2 =>
        if (if b1 = 224 then 160 else 128) ≤ b2 ∧
            b2 ≤ (if b1 = 237 then 159 else 191) ∧ utf8Cont b3 then
          (utf8Decode rest2).map
            (Char.ofNat ((b1 - 224) * 4096 + (b2 - 128) * 64 + (b3 - 128)) :: ·)
        else none
      | _ => none
    else if 240 ≤ b1 ∧ b1 ≤ 244 then
      match rest with
      | b2 :: b3 :: b4 :: rest2 =>
        if (if b1 = 240 then 144 else 128) ≤ b2 ∧
            b2 ≤ (if b1 = 244 then 143 else 191) ∧ utf8Cont b3 ∧ utf8Cont b4 then
          (utf8Decode rest2).map
            (Char.ofNat
              ((b1 - 240) * 262144 + (b2 - 128) * 4096 + (b3 - 128) * 64 + (b4 - 128)) :: ·)
        else none
      | _ => none
    else none

/-- `decoded = b64decode(encoded).decode()` as one step. -/
def bytesToString (bs : List Nat) : Option String :=
  (utf8Decode bs).map fun cs => ⟨cs⟩

/-- `validate_basic(auth_header)` (src/auth.py lines 6-13): take the second
space-separated token, base64-decode it, UTF-8 decode, split on `:` into
exactly a user and a password (the tuple unpacking raises otherwise), and
compare with the configured pair. Every failure is caught and yields `False`. -/
def validate_basic (cfg : AuthConfig) (auth_header : String) : Bool :=
  match (auth_header.splitOn " ").get? 1 with
  | none => false
  | some encoded =>
    match b64decode encoded with
    | none => false
    | some bs =>
      match bytesToString bs with
      | none => false
      | some decoded =>
        match decoded.splitOn ":" with
        | [username, password] =>
          username == cfg.BASIC_USER && password == cfg.BASIC_PASS
        | _ => false

/-- Result of `authenticate`: return, `HTTPException(status_code, detail)`, or
an uncaught Python exception (the unguarded `split(" ")[1]` of the bearer
branch can raise `IndexError`). -/
inductive AuthOutcome where
  | accept : AuthOutcome
  | reject : Nat → String → AuthOutcome
  | pyError : AuthOutcome
deriving DecidableEq

/-- The `if auth_header:` block of `authenticate` (lines 30-38) together with
the final `raise`: a `Basic`-prefixed header accepted by `validate_basic` when
"basic" is allowed returns; otherwise a `Bearer`-prefixed header, when
"bearer" is allowed, compares its second space-separated token with the
configured bearer token; any fall-through raises 401 "Unauthorized". (No
header satisfies both `startswith` tests, so sequencing the two `if`s as
`if`/`else if` is equivalent.) -/
def headerChecks (cfg : AuthConfig) (h : String) (allowed : List String) :
    AuthOutcome :=
  if h.startsWith "Basic" = true ∧ "basic" ∈ allowed ∧ validate_basic cfg h = true then
    .accept
  else if h.startsWith "Bearer" = true ∧ "bearer" ∈ allowed then
    match (h.splitOn " ").get? 1 with
    | none => .pyError
    | some tok =>
      if tok = cfg.BEARER_TOKEN then .accept else .reject 401 "Unauthorized"
  else .reject 401 "Unauthorized"

/-- `authenticate(request, allowed)` (src/auth.py lines 16-38). -/
def authenticate (cfg : AuthConfig) (req : AuthRequest) (allowed : List String) :
    AuthOutcome :=
  let auth_header := req.authorization
  let api_key := req.x_api_key
  if truthy auth_header = false ∧ truthy api_key = false then
    if "none" ∈ allowed then .accept else .reject 401 "Unauthorized"
  else if truthy api_key = true ∧ "apikey" ∈ allowed then
    if api_key = some cfg.API_KEY then .accept
    else .reject 401 "Invalid API Key"
  else if truthy auth_header = true then
    headerChecks cfg (auth_header.getD "") allowed
  else .reject 401 "Unauthorized"

/-! ## The v2 metrics endpoint (src/app/main.py, facility_metrics_v2) -/

/-- `round(x, 2)` over exact rationals (Python rounds the binary float
half-to-even; over `Rat` we round the scaled value to the nearest integer). -/
def round2 (q : Rat) : Rat := (round (q * 100) : Int) / 100

/-- `round(metric.energy_kwh / metric.occupancy, 2)` (line 272): the division
has no zero guard, so occupancy `0` raises `ZeroDivisionError`, modelled as
`none`. -/
def energyPerPerson (energy_kwh : Rat) (occupancy : Nat) : Option Rat :=
  if occupancy = 0 then none
  else some (round2 (energy_kwh / (occupancy : Rat)))

/-- Outcome of `GET /api/v2/facilities/{facility_id}/metrics` after
authentication: the two 404s, the uncaught `ZeroDivisionError`, or the payload
fields that depend on the data. -/
inductive V2Result where
  | notFoundNoData : V2Result
  | notFoundFacility : V2Result
  | zeroDivision : V2Result
  | ok : Nat → Nat → Nat → Rat → Rat → Rat → V2Result
deriving DecidableEq

/-- `facility_metrics_v2` (lines 253-289): latest execution by
`execution_time` descending, first metric of that snapshot for the facility,
then the `energy_per_person` computation. -/
def facility_metrics_v2 (db : DBState) (facility_id : String) : V2Result :=
  match (orderedExecs db).head? with
  | none => .notFoundNoData
  | some snapshot =>
    match db.metrics.find? (fun m =>
        m.snapshot_id == snapshot.id && m.facility_id == facility_id) with
    | none => .notFoundFacility
    | some metric =>
      match energyPerPerson metric.energy_kwh metric.occupancy with
      | none => .zeroDivision
      | some epp =>
        .ok snapshot.id metric.occupancy metric.open_tickets
          metric.energy_kwh metric.water_liters epp

/-! ## Shared facts about retention -/

lemma orderedExecs_length (db : DBState) :
    (orderedExecs db).length = db.executions.length :=
  (List.perm_insertionSort execGe db.executions).length_eq

lemma orderedExecs_sorted (db : DBState) :
    List.Sorted execGe (orderedExecs db) :=
  List.sorted_insertionSort execGe db.executions

lemma retain_exec_length (db : DBState) (L : Nat) :
    (retain_last_n db L).1.executions.length = min db.executions.length L := by
  unfold retain_last_n
  by_cases h : L < (orderedExecs db).length
  · simp only [h, if_pos]
    rw [List.length_take, orderedExecs_length]
    have := orderedExecs_length db
    omega
  · simp only [h, if_neg, not_false_iff]
    have := orderedExecs_length db
    omega

lemma retainPurged_nil (db : DBState) (L : Nat)
    (h : ¬ L < (orderedExecs db).length) : retainPurged db L = [] := by
  unfold retainPurged
  exact List.drop_eq_nil_of_le (by omega)

lemma retain_exec_mem_take (db : DBState) (L : Nat) (s : Execution)
    (h : L < (orderedExecs db).length)
    (hs : s ∈ (retain_last_n db L).1.executions) :
    s ∈ (orderedExecs db).take L := by
  unfold retain_last_n at hs
  simp only [h, if_pos] at hs
  exact hs

lemma retain_order (db : DBState) (L : Nat) (s p : Execution)
    (hs : s ∈ (retain_last_n db L).1.executions)
    (hp : p ∈ retainPurged db L) :
    p.execution_time ≤ s.execution_time := by
  by_cases h : L < (orderedExecs db).length
  · exact (orderedExecs_sorted db).rel_of_mem_take_of_mem_drop
      (retain_exec_mem_take db L s h hs) hp
  · rw [retainPurged_nil db L h] at hp
    cases hp

/-! ## Concrete demo data used by witnesses and counterexamples -/

def exec10 : Execution :=
  { id := 1, execution_time := 10, status := "success", execution_duration_ms := some 4 }

def exec20 : Execution :=
  { id := 2, execution_time := 20, status := "success", execution_duration_ms := some 4 }

def exec15 : Execution :=
  { id := 3, execution_time := 15, status := "failed", execution_duration_ms := none }

def metricOf1 : Metric :=
  { snapshot_id := 1, facility_id := "F1", hvac_status_id := 1, occupancy := 3,
    energy_kwh := 100, water_liters := 200, open_tickets := 1, recorded_at := 10 }

def metricOf2 : Metric :=
  { snapshot_id := 2, facility_id := "F1", hvac_status_id := 1, occupancy := 3,
    energy_kwh := 100, water_liters := 200, open_tickets := 1, recorded_at := 20 }

/-- Three executions (times 10, 20, 15) with one metric row each for
snapshots 1 and 2. -/
def dbRet : DBState :=
  { facilities := [], hvac_statuses := [], executions := [exec10, exec20, exec15],
    metrics := [metricOf1, metricOf2] }

/-! ## C1: retention keeps the `min(count_before, L)` most recent executions -/

/-- C1: after `retain_last_n(db, L)` the count of `SnapshotExecution` rows is
`min(count_before, L)`, and every surviving execution's `execution_time` is
greater than or equal to every purged execution's `execution_time`. -/
theorem retention_keeps_min_most_recent (db : DBState) (L : Nat) :
    (retain_last_n db L).1.executions.length = min db.executions.length L ∧
    ∀ s ∈ (retain_last_n db L).1.executions, ∀ p ∈ retainPurged db L,
      p.execution_time ≤ s.execution_time :=
  ⟨retain_exec_length db L, fun s hs p hp => retain_order db L s p hs hp⟩

theorem retention_keeps_min_most_recent_witness :
    (retain_last_n dbRet 1).1.executions.length = min dbRet.executions.length 1 ∧
    exec10.execution_time ≤ exec20.execution_time :=
  ⟨(retention_keeps_min_most_recent dbRet 1).1,
   (retention_keeps_min_most_recent dbRet 1).2 exec20 (by decide) exec10 (by decide)⟩

/-! ## C4: retention leaves no orphaned metric rows -/

/-- C4: after `retain_last_n` completes, no surviving `FacilityMetric` row
references an execution purged by the call: each deleted execution's child
metric rows are deleted with it. -/
theorem retention_leaves_no_orphans (db : DBState) (L : Nat) (m : Metric)
    (e : Execution) (hm : m ∈ (retain_last_n db L).1.metrics)
    (he : e ∈ retainPurged db L) :
    m.snapshot_id ≠ e.id := by
  unfold retainPurged at he
  by_cases h : L < (orderedExecs db).length
  · unfold retain_last_n at hm
    simp only [h, if_pos] at hm
    have hfilter := List.of_mem_filter hm
    intro heq
    have hmem : e.id ∈ ((orderedExecs db).drop L).map (·.id) :=
      List.mem_map_of_mem (·.id) he
    rw [← heq] at hmem
    rw [Bool.not_eq_true', ← Bool.not_eq_true, List.contains, List.elem_iff] at hfilter
    exact hfilter hmem
  · rw [List.drop_eq_nil_of_le (by have := orderedExecs_length db; omega)] at he
    cases he

theorem retention_leaves_no_orphans_witness : metricOf2.snapshot_id ≠ exec10.id :=
  retention_leaves_no_orphans dbRet 1 metricOf2 exec10 (by decide) (by decide)

/-! ## C7: the retention call's return value -/

/-- C7 counterexample: `retain_last_n(dbRet, 1)` purges two executions but
returns `None` (modelled `none`), not the number purged. -/
theorem retain_return_value_counterexample :
    (retain_last_n dbRet 1).2 = none ∧
    dbRet.executions.length - (retain_last_n dbRet 1).1.executions.length = 2 ∧
    (none : Option Nat) ≠ some 2 := by decide

/-- C7 amended: `retain_last_n` purges `count_before - min(count_before, L)`
executions but returns no value (the Python function has no `return`
statement, so its value is `None`), so the number purged is not reported. -/
theorem retain_returns_none_purging_excess (db : DBState) (L : Nat) :
    (retain_last_n db L).2 = none ∧
    db.executions.length - (retain_last_n db L).1.executions.length =
      db.executions.length - min db.executions.length L := by
  refine ⟨?_, by rw [retain_exec_length]⟩
  unfold retain_last_n
  by_cases h : L < (orderedExecs db).length <;> simp [h]

/-! ## C5: resume while Active -/

/-- The Active controller state: timer running, job registered, not paused. -/
def sActive : SchedState := { running := true, job := some false }

/-- C5 counterexample: calling `resume` while the job is Active returns
`"resumed"`, not the claimed `"already_running"`. -/
theorem resume_active_counterexample :
    (resume_scheduler sActive).2 = "resumed" ∧
    (resume_scheduler sActive).2 ≠ "already_running" := by
  exact ⟨rfl, by decide⟩

/-- C5 amended: calling `resume` while the job is Active leaves the job Active
(registered, unpaused, timer state unchanged) and returns the status token
`"resumed"`. -/
theorem resume_while_active (s : SchedState) (h : s.job = some false) :
    (resume_scheduler s).1.job = some false ∧
    (resume_scheduler s).1.running = s.running ∧
    (resume_scheduler s).2 = "resumed" := by
  unfold resume_scheduler
  rw [h]
  exact ⟨rfl, rfl, rfl⟩

theorem resume_while_active_witness :
    (resume_scheduler sActive).1.job = some false ∧
    (resume_scheduler sActive).1.running = sActive.running ∧
    (resume_scheduler sActive).2 = "resumed" :=
  resume_while_active sActive rfl

/-! ## C6: stop twice, and status is pure -/

/-- C6: from any state with the job registered (Active or Paused), the first
`stop` returns `"stopped"` and removes the job, the second `stop` returns
`"not_running"`; and `scheduler_status` never mutates the controller state. -/
theorem stop_twice_status_pure (s : SchedState) (h : s.job.isSome = true) :
    (stop_scheduler s).2 = "stopped" ∧
    (stop_scheduler s).1.job = none ∧
    (stop_scheduler (stop_scheduler s).1).2 = "not_running" ∧
    ∀ t : SchedState, (scheduler_status t).1 = t := by
  obtain ⟨p, hp⟩ := Option.isSome_iff_exists.mp h
  unfold stop_scheduler
  rw [hp]
  exact ⟨rfl, rfl, rfl, fun t => rfl⟩

theorem stop_twice_status_pure_witness :
    (stop_scheduler sActive).2 = "stopped" ∧
    (stop_scheduler sActive).1.job = none ∧
    (stop_scheduler (stop_scheduler sActive).1).2 = "not_running" ∧
    ∀ t : SchedState, (scheduler_status t).1 = t :=
  stop_twice_status_pure sActive rfl

/-! ## C8: API key precedence -/

/-- A demo configuration of the four secrets. -/
def cfgDemo : AuthConfig :=
  { BASIC_USER := "admin", BASIC_PASS := "secret",
    API_KEY := "key123", BEARER_TOKEN := "tok456" }

def reqGoodKey : AuthRequest := { authorization := none, x_api_key := some "key123" }

/-- A request carrying both a non-matching API key and a valid bearer token. -/
def reqBadKeyWithBearer : AuthRequest :=
  { authorization := some "Bearer tok456", x_api_key := some "wrong" }

/-- C8: when an API key header is present and the endpoint allows `"apikey"`,
the key is checked first: a matching key is accepted and a non-matching key is
rejected — whatever the `authorization` header holds, so in particular
regardless of a valid bearer token being present. -/
theorem apikey_checked_first (cfg : AuthConfig) (req : AuthRequest)
    (allowed : List String) (hkey : truthy req.x_api_key = true)
    (hallow : "apikey" ∈ allowed) :
    (req.x_api_key = some cfg.API_KEY →
      authenticate cfg req allowed = .accept) ∧
    (req.x_api_key ≠ some cfg.API_KEY →
      authenticate cfg req allowed = .reject 401 "Invalid API Key") := by
  simp only [authenticate]
  have h1 : ¬ (truthy req.authorization = false ∧ truthy req.x_api_key = false) := by
    simp [hkey]
  rw [if_neg h1, if_pos ⟨hkey, hallow⟩]
  exact ⟨fun he => by rw [if_pos he], fun he => by rw [if_neg he]⟩

theorem apikey_checked_first_witness :
    authenticate cfgDemo reqGoodKey ["apikey"] = .accept ∧
    authenticate cfgDemo reqBadKeyWithBearer ["apikey", "basic"] =
      .reject 401 "Invalid API Key" :=
  ⟨(apikey_checked_first cfgDemo reqGoodKey ["apikey"] (by decide) (by decide)).1 rfl,
   (apikey_checked_first cfgDemo reqBadKeyWithBearer ["apikey", "basic"] (by decide)
      (by decide)).2 (by decide)⟩

/-! ## C9: shape of the unauthorized responses -/

/-- C9 counterexample: two rejected attempts whose responses differ — a bad
API key yields `401 "Invalid API Key"` while a missing credential yields
`401 "Unauthorized"`, so the rejection does reveal which check failed. -/
theorem reject_responses_differ_counterexample :
    authenticate cfgDemo { authorization := none, x_api_key := some "wrong" }
      ["apikey"] = .reject 401 "Invalid API Key" ∧
    authenticate cfgDemo { authorization := none, x_api_key := none }
      ["apikey"] = .reject 401 "Unauthorized" ∧
    AuthOutcome.reject 401 "Invalid API Key" ≠
      AuthOutcome.reject 401 "Unauthorized" := by
  refine ⟨rfl, rfl, by decide⟩

lemma headerChecks_reject_detail (cfg : AuthConfig) (h : String)
    (allowed : List String) (sc : Nat) (d : String)
    (hr : headerChecks cfg h allowed = .reject sc d) :
    sc = 401 ∧ d = "Unauthorized" := by
  unfold headerChecks at hr
  by_cases h1 : h.startsWith "Basic" = true ∧ "basic" ∈ allowed ∧
      validate_basic cfg h = true
  · rw [if_pos h1] at hr
    exact AuthOutcome.noConfusion hr
  · rw [if_neg h1] at hr
    by_cases h2 : h.startsWith "Bearer" = true ∧ "bearer" ∈ allowed
    · rw [if_pos h2] at hr
      cases hg : (h.splitOn " ").get? 1 with
      | none =>
        simp only [hg] at hr
        exact AuthOutcome.noConfusion hr
      | some tok =>
        simp only [hg] at hr
        by_cases h3 : tok = cfg.BEARER_TOKEN
        · rw [if_pos h3] at hr
          exact AuthOutcome.noConfusion hr
        · rw [if_neg h3] at hr
          simp only [AuthOutcome.reject.injEq] at hr
          exact ⟨hr.1.symm, hr.2.symm⟩
    · rw [if_neg h2] at hr
      simp only [AuthOutcome.reject.injEq] at hr
      exact ⟨hr.1.symm, hr.2.symm⟩

/-- C9 amended: every rejection carries status code 401, but the responses are
not all identical: the detail is `"Invalid API Key"` exactly when a present
API key failed its check on an endpoint allowing `"apikey"`, and
`"Unauthorized"` in every other case. -/
theorem unauthorized_response_shape (cfg : AuthConfig) (req : AuthRequest)
    (allowed : List String) (sc : Nat) (d : String)
    (hr : authenticate cfg req allowed = .reject sc d) :
    sc = 401 ∧ (d = "Unauthorized" ∨ d = "Invalid API Key") ∧
    (d = "Invalid API Key" →
      truthy req.x_api_key = true ∧ "apikey" ∈ allowed ∧
        req.x_api_key ≠ some cfg.API_KEY) := by
  simp only [authenticate] at hr
  by_cases h1 : truthy req.authorization = false ∧ truthy req.x_api_key = false
  · rw [if_pos h1] at hr
    by_cases h2 : "none" ∈ allowed
    · rw [if_pos h2] at hr
      exact AuthOutcome.noConfusion hr
    · rw [if_neg h2] at hr
      simp only [AuthOutcome.reject.injEq] at hr
      exact ⟨hr.1.symm, Or.inl hr.2.symm,
        fun hd => absurd (hr.2.trans hd) (by decide)⟩
  · rw [if_neg h1] at hr
    by_cases h2 : truthy req.x_api_key = true ∧ "apikey" ∈ allowed
    · rw [if_pos h2] at hr
      by_cases h3 : req.x_api_key = some cfg.API_KEY
      · rw [if_pos h3] at hr
        exact AuthOutcome.noConfusion hr
      · rw [if_neg h3] at hr
        simp only [AuthOutcome.reject.injEq] at hr
        exact ⟨hr.1.symm, Or.inr hr.2.symm, fun _ => ⟨h2.1, h2.2, h3⟩⟩
    · rw [if_neg h2] at hr
      by_cases h3 : truthy req.authorization = true
      · rw [if_pos h3] at hr
        have hsh := headerChecks_reject_detail cfg _ allowed sc d hr
        exact ⟨hsh.1, Or.inl hsh.2, fun hd => absurd (hsh.2.symm.trans hd) (by decide)⟩
      · rw [if_neg h3] at hr
        simp only [AuthOutcome.reject.injEq] at hr
        exact ⟨hr.1.symm, Or.inl hr.2.symm,
          fun hd => absurd (hr.2.trans hd) (by decide)⟩

theorem unauthorized_response_shape_witness :
    (401 : Nat) = 401 ∧
    ("Invalid API Key" = "Unauthorized" ∨ "Invalid API Key" = "Invalid API Key") ∧
    ("Invalid API Key" = "Invalid API Key" →
      truthy reqBadKeyWithBearer.x_api_key = true ∧ "apikey" ∈ ["apikey"] ∧
        reqBadKeyWithBearer.x_api_key ≠ some cfgDemo.API_KEY) :=
  unauthorized_response_shape cfgDemo reqBadKeyWithBearer ["apikey"] 401
    "Invalid API Key" (by decide)

/-! ## Shared facts about snapshot generation -/

/-- The status of the execution row with the given id (`find?` models a
`.first()` read on an id filter). -/
def execStatus? (db : DBState) (eid : Nat) : Option String :=
  (db.executions.find? (fun e => e.id == eid)).map (·.status)

lemma le_foldr_max (l : List Nat) (x : Nat) (hx : x ∈ l) : x ≤ l.foldr max 0 := by
  induction l with
  | nil => cases hx
  | cons a t ih =>
    rcases List.mem_cons.mp hx with rfl | hxt
    · exact le_max_left _ _
    · exact le_trans (ih hxt) (le_max_right _ _)

lemma exec_id_lt_nextExecId (db : DBState) (e : Execution)
    (he : e ∈ db.executions) : e.id < nextExecId db := by
  have hle : e.id ≤ (db.executions.map (·.id)).foldr max 0 :=
    le_foldr_max _ _ (List.mem_map_of_mem (·.id) he)
  unfold nextExecId
  omega

lemma find?_append_of_ne {l1 l2 : List Execution} {n : Nat}
    (h : ∀ e ∈ l1, e.id ≠ n) :
    (l1 ++ l2).find? (fun e => e.id == n) = l2.find? (fun e => e.id == n) := by
  induction l1 with
  | nil => rfl
  | cons a t ih =>
    rw [List.cons_append,
      List.find?_cons_of_neg _ (by simp [h a (List.mem_cons_self a t)])]
    exact ih fun e he => h e (List.mem_cons_of_mem a he)

lemma find?_append_singleton (l : List Execution) (snap : Execution) (n : Nat)
    (hl : ∀ e ∈ l, e.id ≠ n) (hs : snap.id = n) :
    (l ++ [snap]).find? (fun e => e.id == n) = some snap := by
  rw [find?_append_of_ne hl]
  simp [List.find?_cons_of_pos, hs]

lemma map_setStatus_of_ne (l : List Execution) (n : Nat) (st : String)
    (dur : Option Nat) (h : ∀ e ∈ l, e.id ≠ n) :
    l.map (fun e => if e.id = n then
        { e with status := st, execution_duration_ms := dur } else e) = l := by
  induction l with
  | nil => rfl
  | cons a t ih =>
    rw [List.map_cons, if_neg (h a (List.mem_cons_self a t)),
      ih fun e he => h e (List.mem_cons_of_mem a he)]

/-- The committed status of the fresh execution after the handler sets it,
when the session holds the original rows plus the new snapshot row. -/
lemma execStatus?_set_fresh (db : DBState) (db0exec : List Execution)
    (snapshot : Execution) (n : Nat) (st : String) (dur : Option Nat)
    (hexec : db.executions = db0exec ++ [snapshot])
    (hfresh : ∀ e ∈ db0exec, e.id ≠ n) (hid : snapshot.id = n) :
    execStatus? (setExecStatus db n st dur) n = some st := by
  unfold execStatus? setExecStatus
  simp only [hexec, List.map_append, List.map_cons, List.map_nil]
  rw [map_setStatus_of_ne _ _ _ _ hfresh, if_pos hid]
  rw [find?_append_singleton _ _ _ hfresh (by simpa using hid)]
  rfl

lemma insertLoop_error_of_fault (snapId : Nat) (facilities : List Facility)
    (statuses : List HVACStatusRow) (rng : RunRandom) (fault : FaultSpec)
    (tNow : Nat) :
    ∀ (i : Nat) (acc : List Metric),
      (∃ j, j < facilities.length ∧ fault.metricFails (i + j) = true) →
      ∃ pending, insertLoop snapId facilities statuses rng fault tNow i acc =
        .error pending := by
  induction facilities with
  | nil =>
    intro i acc ⟨j, hj, _⟩
    simp at hj
  | cons f rest ih =>
    intro i acc ⟨j, hj, hjf⟩
    unfold insertLoop
    cases hb : buildMetric snapId f statuses rng i tNow with
    | none => exact ⟨acc, rfl⟩
    | some m =>
      by_cases hf : fault.metricFails i = true
      · simp only [hf, if_true]
        exact ⟨acc, rfl⟩
      · simp only [hf, if_false, Bool.false_eq_true, if_neg, not_false_iff]
        apply ih
        cases j with
        | zero => exact absurd hjf (by simpa using hf)
        | succ j' =>
          refine ⟨j', by simpa using Nat.lt_of_succ_lt_succ (by simpa using hj), ?_⟩
          have harith : i + 1 + j' = i + (j' + 1) := by omega
          rw [harith]
          exact hjf

lemma insertLoop_error_of_no_statuses (snapId : Nat) (f : Facility)
    (rest : List Facility) (rng : RunRandom) (fault : FaultSpec)
    (tNow i : Nat) (acc : List Metric) :
    insertLoop snapId (f :: rest) [] rng fault tNow i acc = .error acc := by
  rfl

/-! ## C3: failures during generation are swallowed -/

/-- C3: if any step of the generation algorithm fails — execution creation,
the reference loads, any metric insert, or an empty HVAC status set with at
least one active facility — then `generate_snapshot` commits the new
execution with status `"failed"`, does not run retention, and lets no
exception escape (`raised = false` on every path of the embedding, mirroring
the blanket `except Exception`). -/
theorem generation_failure_swallowed (db0 : DBState) (rng : RunRandom)
    (fault : FaultSpec) (tNow tDur : Nat)
    (hfail : fault.createFails = true ∨ fault.loadFails = true ∨
      (∃ i, i < (db0.facilities.filter (·.is_active)).length ∧
        fault.metricFails i = true) ∨
      (db0.hvac_statuses = [] ∧ db0.facilities.filter (·.is_active) ≠ [])) :
    execStatus? (generate_snapshot db0 rng fault tNow tDur).db (nextExecId db0) =
      some "failed" ∧
    (generate_snapshot db0 rng fault tNow tDur).retentionRan = false ∧
    (generate_snapshot db0 rng fault tNow tDur).raised = false := by
  have hfresh : ∀ e ∈ db0.executions, e.id ≠ nextExecId db0 :=
    fun e he => Nat.ne_of_lt (exec_id_lt_nextExecId db0 e he)
  by_cases hc : fault.createFails = true
  · simp only [generate_snapshot, hc, if_true]
    refine ⟨?_, trivial, trivial⟩
    unfold execStatus?
    rw [find?_append_singleton _ _ _ hfresh rfl]
    rfl
  · rw [Bool.not_eq_true] at hc
    by_cases hl : fault.loadFails = true
    · simp only [generate_snapshot, hc, Bool.false_eq_true, if_false, hl, if_true]
      exact ⟨execStatus?_set_fresh _ db0.executions _ _ "failed" none rfl hfresh rfl,
        trivial, trivial⟩
    · rw [Bool.not_eq_true] at hl
      have herr : ∃ pending,
          insertLoop (nextExecId db0) (db0.facilities.filter (·.is_active))
            db0.hvac_statuses rng fault tNow 0 [] = .error pending := by
        rcases hfail with h | h | h | h
        · exact absurd h (by simp [hc])
        · exact absurd h (by simp [hl])
        · obtain ⟨i, hi, hif⟩ := h
          exact insertLoop_error_of_fault (nextExecId db0) _ db0.hvac_statuses
            rng fault tNow 0 [] ⟨i, hi, by simpa using hif⟩
        · obtain ⟨hstat, hfac⟩ := h
          cases hf : db0.facilities.filter (·.is_active) with
          | nil => exact absurd hf hfac
          | cons f rest =>
            rw [hstat]
            exact ⟨[], insertLoop_error_of_no_statuses _ f rest rng fault tNow 0 []⟩
      obtain ⟨pending, hpend⟩ := herr
      simp only [generate_snapshot, hc, Bool.false_eq_true, if_false, hl, hpend]
      exact ⟨execStatus?_set_fresh _ db0.executions _ _ "failed" none rfl hfresh rfl,
        trivial, trivial⟩

def faultLoad : FaultSpec :=
  { createFails := false, loadFails := true,
    metricFails := fun _ => false, commitFails := false }

def facDemo : Facility :=
  { id := "F1", name := "Alpha", city := "X", capacity := 2, is_active := true }

def statusDemo : HVACStatusRow := { id := 7, code := "healthy", description := "Normal" }

/-- A randomness oracle drawing zero everywhere. -/
def rngZero : RunRandom :=
  { occSeed := fun _ => 0, choiceSeed := fun _ => 0, energyDraw := fun _ => 0,
    waterDraw := fun _ => 0, ticketsSeed := fun _ => 0 }

/-- One active capacity-2 facility, one HVAC status, empty history. -/
def dbDemo : DBState :=
  { facilities := [facDemo], hvac_statuses := [statusDemo],
    executions := [], metrics := [] }

theorem generation_failure_swallowed_witness :
    execStatus? (generate_snapshot dbDemo rngZero faultLoad 100 5).db
      (nextExecId dbDemo) = some "failed" ∧
    (generate_snapshot dbDemo rngZero faultLoad 100 5).retentionRan = false ∧
    (generate_snapshot dbDemo rngZero faultLoad 100 5).raised = false :=
  generation_failure_swallowed dbDemo rngZero faultLoad 100 5 (Or.inr (Or.inl rfl))

/-! ## C2: occupancy lies in the floor bounds -/

lemma occLo_le_occHi (c : Nat) : occLo c ≤ occHi c := by
  unfold occLo occHi
  omega

lemma randint_mem (lo hi s : Nat) (h : lo ≤ hi) :
    lo ≤ randint lo hi s ∧ randint lo hi s ≤ hi := by
  unfold randint
  have hpos : 0 < hi + 1 - lo := by omega
  have := Nat.mod_lt s hpos
  omega

lemma buildMetric_fields (snapId : Nat) (f : Facility)
    (statuses : List HVACStatusRow) (rng : RunRandom) (i tNow : Nat) (m : Metric)
    (h : buildMetric snapId f statuses rng i tNow = some m) :
    m.facility_id = f.id ∧ m.snapshot_id = snapId ∧
    occLo f.capacity ≤ m.occupancy ∧ m.occupancy ≤ occHi f.capacity := by
  unfold buildMetric at h
  cases hc : choice statuses (rng.choiceSeed i) with
  | none => rw [hc] at h; cases h
  | some st =>
    rw [hc] at h
    injection h with h
    subst h
    exact ⟨rfl, rfl, (randint_mem _ _ _ (occLo_le_occHi f.capacity)).1,
      (randint_mem _ _ _ (occLo_le_occHi f.capacity)).2⟩

/-- Every metric in the list the facility loop hands back — committed on
success, or pending on abort — is an accumulator row or was built by
`buildMetric` for one of the facilities. -/
lemma insertLoop_mem (snapId : Nat) (facilities : List Facility)
    (statuses : List HVACStatusRow) (rng : RunRandom) (fault : FaultSpec)
    (tNow : Nat) :
    ∀ (i : Nat) (acc out : List Metric),
      (insertLoop snapId facilities statuses rng fault tNow i acc = .ok out ∨
       insertLoop snapId facilities statuses rng fault tNow i acc = .error out) →
      ∀ m ∈ out,
        m ∈ acc ∨ ∃ f ∈ facilities, ∃ j,
          buildMetric snapId f statuses rng j tNow = some m := by
  induction facilities with
  | nil =>
    intro i acc out hout m hm
    rcases hout with h | h
    · unfold insertLoop at h
      injection h with h
      subst h
      exact Or.inl hm
    · unfold insertLoop at h
      cases h
  | cons f rest ih =>
    intro i acc out hout m hm
    unfold insertLoop at hout
    cases hb : buildMetric snapId f statuses rng i tNow with
    | none =>
      simp only [hb] at hout
      rcases hout with h | h
      · cases h
      · injection h with h
        subst h
        exact Or.inl hm
    | some mm =>
      simp only [hb] at hout
      by_cases hf : fault.metricFails i = true
      · rw [if_pos hf] at hout
        rcases hout with h | h
        · cases h
        · injection h with h
          subst h
          exact Or.inl hm
      · rw [if_neg hf] at hout
        rcases ih (i + 1) (acc ++ [mm]) out hout m hm with hmem | ⟨f', hf', j, hj⟩
        · rcases List.mem_append.mp hmem with h1 | h2
          · exact Or.inl h1
          · have hmmm : m = mm := by simpa using h2
            exact Or.inr ⟨f, List.mem_cons_self f rest, i, hmmm ▸ hb⟩
        · exact Or.inr ⟨f', List.mem_cons_of_mem f hf', j, hj⟩

lemma retain_metrics_subset (db : DBState) (L : Nat) (m : Metric)
    (hm : m ∈ (retain_last_n db L).1.metrics) : m ∈ db.metrics := by
  unfold retain_last_n at hm
  by_cases h : L < (orderedExecs db).length
  · simp only [h, if_pos] at hm
    exact List.mem_of_mem_filter hm
  · simpa [h] using hm

/-- C2: every metric row in the database after a `generate_snapshot` call
either predates the call or was produced by it for an active facility `f`,
with occupancy in the inclusive range
`[int(0.4 * f.capacity), int(0.9 * f.capacity)]` — both bounds floors. -/
theorem metric_occupancy_in_floor_bounds (db0 : DBState) (rng : RunRandom)
    (fault : FaultSpec) (tNow tDur : Nat) (m : Metric)
    (hm : m ∈ (generate_snapshot db0 rng fault tNow tDur).db.metrics) :
    m ∈ db0.metrics ∨
      ∃ f ∈ db0.facilities, f.is_active = true ∧ m.facility_id = f.id ∧
        occLo f.capacity ≤ m.occupancy ∧ m.occupancy ≤ occHi f.capacity := by
  have key : ∀ pend,
      (insertLoop (nextExecId db0) (db0.facilities.filter (·.is_active))
          db0.hvac_statuses rng fault tNow 0 [] = .ok pend ∨
       insertLoop (nextExecId db0) (db0.facilities.filter (·.is_active))
          db0.hvac_statuses rng fault tNow 0 [] = .error pend) →
      m ∈ db0.metrics ++ pend →
      m ∈ db0.metrics ∨
        ∃ f ∈ db0.facilities, f.is_active = true ∧ m.facility_id = f.id ∧
          occLo f.capacity ≤ m.occupancy ∧ m.occupancy ≤ occHi f.capacity := by
    intro pend hloop hmem
    rcases List.mem_append.mp hmem with h1 | h2
    · exact Or.inl h1
    · rcases insertLoop_mem (nextExecId db0) _ db0.hvac_statuses rng fault tNow
          0 [] pend hloop m h2 with habs | ⟨f, hf, j, hj⟩
      · cases habs
      · obtain ⟨hfmem, hfact⟩ := List.mem_filter.mp hf
        obtain ⟨hid, _, hlo, hhi⟩ :=
          buildMetric_fields (nextExecId db0) f db0.hvac_statuses rng j tNow m hj
        exact Or.inr ⟨f, hfmem, by simpa using hfact, hid, hlo, hhi⟩
  by_cases hc : fault.createFails = true
  · simp only [generate_snapshot, hc, if_true] at hm
    exact Or.inl hm
  · rw [Bool.not_eq_true] at hc
    by_cases hl : fault.loadFails = true
    · simp only [generate_snapshot, hc, Bool.false_eq_true, if_false, hl,
        if_true, setExecStatus] at hm
      exact Or.inl hm
    · rw [Bool.not_eq_true] at hl
      cases hloop : insertLoop (nextExecId db0)
          (db0.facilities.filter (·.is_active)) db0.hvac_statuses rng fault
          tNow 0 [] with
      | error pending =>
        simp only [generate_snapshot, hc, Bool.false_eq_true, if_false, hl,
          hloop, setExecStatus] at hm
        exact key pending (Or.inr hloop) hm
      | ok produced =>
        by_cases hcm : fault.commitFails = true
        · simp only [generate_snapshot, hc, Bool.false_eq_true, if_false, hl,
            hloop, hcm, if_true, setExecStatus] at hm
          exact key produced (Or.inl hloop) hm
        · rw [Bool.not_eq_true] at hcm
          simp only [generate_snapshot, hc, Bool.false_eq_true, if_false, hl,
            hloop, hcm, setExecStatus] at hm
          exact key produced (Or.inl hloop) (retain_metrics_subset _ 50 m hm)

/-- The metric row the demo run produces: occupancy 0 from
`randint(int(0.4*2), int(0.9*2)) = randint(0, 1)` drawing 0. -/
def mDemo : Metric :=
  { snapshot_id := 1, facility_id := "F1", hvac_status_id := 7, occupancy := 0,
    energy_kwh := uniform 10000 30000 0, water_liters := uniform 20000 60000 0,
    open_tickets := 0, recorded_at := 100 }

theorem metric_occupancy_in_floor_bounds_witness :
    mDemo ∈ dbDemo.metrics ∨
      ∃ f ∈ dbDemo.facilities, f.is_active = true ∧ mDemo.facility_id = f.id ∧
        occLo f.capacity ≤ mDemo.occupancy ∧ mDemo.occupancy ≤ occHi f.capacity :=
  metric_occupancy_in_floor_bounds dbDemo rngZero noFault 100 5 mDemo
    (List.mem_singleton_self mDemo)

/-! ## C10: unguarded division by occupancy in the v2 endpoint -/

/-- C10: the v2 endpoint's `energy_per_person` divides `energy_kwh` by the
metric's occupancy with no zero guard — defined exactly when occupancy is
positive, raising `ZeroDivisionError` (modelled `none` / `.zeroDivision`) at
occupancy 0; and occupancy 0 is reachable at the public interface, because a
facility of capacity ≤ 2 has `int(0.4*capacity) = 0` and can draw occupancy 0
in a successful generation run, after which the endpoint hits the division. -/
theorem v2_division_unguarded_zero_reachable :
    (∀ e : Rat, energyPerPerson e 0 = none) ∧
    (∀ (e : Rat) (occ : Nat), 0 < occ → (energyPerPerson e occ).isSome = true) ∧
    (∀ cap : Nat, cap ≤ 2 → occLo cap = 0 ∧ randint (occLo cap) (occHi cap) 0 = 0) ∧
    execStatus? (generate_snapshot dbDemo rngZero noFault 100 5).db 1 =
      some "success" ∧
    facility_metrics_v2 (generate_snapshot dbDemo rngZero noFault 100 5).db "F1" =
      .zeroDivision := by
  refine ⟨fun e => rfl, ?_, ?_, by decide, by decide⟩
  · intro e occ h
    unfold energyPerPerson
    rw [if_neg (by omega)]
    rfl
  · intro cap hcap
    have h1 : occLo cap = 0 := by unfold occLo; omega
    refine ⟨h1, ?_⟩
    simp [randint, h1]

theorem v2_division_unguarded_zero_reachable_witness :
    energyPerPerson 20000 0 = none ∧
    (energyPerPerson 20000 4).isSome = true ∧
    (occLo 2 = 0 ∧ randint (occLo 2) (occHi 2) 0 = 0) :=
  ⟨v2_division_unguarded_zero_reachable.1 20000,
   v2_division_unguarded_zero_reachable.2.1 20000 4 (by decide),
   v2_division_unguarded_zero_reachable.2.2.1 2 (by decide)⟩
